import Mathlib

/-!
Verification of the MHE (moving horizon estimator) core of do-mpc,
shallowly embedded from `src/new_version/do_mpc/estimator.py`.

Numeric values are modelled as integers (the Python code computes with
floating-point numbers; the claims under verification are structural and
do not depend on the scalar field, and integers keep every theorem
kernel-computable).  casadi structured vectors are modelled as
lists of label/value pairs or plain value lists; symbolic casadi
expressions are modelled by the data the code actually inspects
(shapes and free-symbol name sets).
-/

/-- Association-list lookup by label, mirroring how a casadi structured
vector binds a value to each named entry (labels are unique within a
struct).  The default 0 is never reached for labels present in the
struct. -/
def lookupD : List (String × ℤ) → String → ℤ
  | [], _ => 0
  | (k, v) :: l, n => if k = n then v else lookupD l n

/-- Labels of the estimated-parameter struct `_p_est`: the model's
parameter names, in model order, that occur in `p_est_list`
(estimator.py line 132-135; the comprehension iterates over
`_p.keys()`, so names in `p_est_list` that are not model parameters are
silently dropped). -/
def p_est_names (p_names est : List String) : List String :=
  p_names.filter (fun n => est.contains n)

/-- Labels of the fixed-parameter struct `_p_set`: the model's parameter
names, in model order, that do not occur in `p_est_list`
(estimator.py line 136-138). -/
def p_set_names (p_names est : List String) : List String :=
  p_names.filter (fun n => !(est.contains n))

/-- Restriction of a full labelled parameter vector to its estimated
entries, as produced by evaluating the `_p_est` struct on values taken
from the full vector. -/
def split_est (est : List String) (p : List (String × ℤ)) : List (String × ℤ) :=
  p.filter (fun e => est.contains e.1)

/-- Restriction of a full labelled parameter vector to its fixed
entries. -/
def split_set (est : List String) (p : List (String × ℤ)) : List (String × ℤ) :=
  p.filter (fun e => !(est.contains e.1))

/-- The recombination function `_p_cat_fun = Function('p_cat_fun',
[_p_est, _p_set], [_p])` (estimator.py line 140): evaluating the full
parameter expression `_p` takes, for each parameter in model order, the
value bound to its symbol, which lives in `_p_est` exactly when the name
is in `p_est_list` and in `_p_set` otherwise. -/
def p_cat_fun (full_names est : List String)
    (p_est p_set : List (String × ℤ)) : List ℤ :=
  full_names.map (fun n =>
    if est.contains n then lookupD p_est n else lookupD p_set n)

theorem lookupD_cons_ne (n m : String) (v : ℤ) (l : List (String × ℤ))
    (h : n ≠ m) : lookupD ((n, v) :: l) m = lookupD l m := by
  simp [lookupD, h]

theorem lookupD_split_est_cons_ne (est : List String) (n m : String) (v : ℤ)
    (l : List (String × ℤ)) (h : n ≠ m) :
    lookupD (split_est est ((n, v) :: l)) m = lookupD (split_est est l) m := by
  by_cases hc : n ∈ est
  · simp [split_est, List.filter_cons, hc, lookupD_cons_ne _ _ _ _ h]
  · simp [split_est, List.filter_cons, hc]

theorem lookupD_split_set_cons_ne (est : List String) (n m : String) (v : ℤ)
    (l : List (String × ℤ)) (h : n ≠ m) :
    lookupD (split_set est ((n, v) :: l)) m = lookupD (split_set est l) m := by
  by_cases hc : n ∈ est
  · simp [split_set, List.filter_cons, hc]
  · simp [split_set, List.filter_cons, hc, lookupD_cons_ne _ _ _ _ h]

theorem map_congr_mem {α β : Type} (l : List α) (f g : α → β)
    (h : ∀ a ∈ l, f a = g a) : l.map f = l.map g := by
  induction l with
  | nil => rfl
  | cons a tl ih =>
      simp only [List.map_cons, h a (List.mem_cons_self a tl)]
      rw [ih (fun x hx => h x (List.mem_cons_of_mem a hx))]

/-- Claim C1: for every partition of the model's ordered parameter set
(given by any `p_est_list`, including the empty one) and every value of
the full parameter vector, splitting it into estimated and fixed parts
and recombining them with `_p_cat_fun` reproduces the full parameter
vector with each component at its original position. -/
theorem p_cat_fun_recombines (est : List String) (p : List (String × ℤ))
    (hnd : (p.map Prod.fst).Nodup) :
    p_cat_fun (p.map Prod.fst) est (split_est est p) (split_set est p) =
      p.map Prod.snd := by
  induction p with
  | nil => rfl
  | cons hd tl ih =>
      obtain ⟨n, v⟩ := hd
      simp only [List.map_cons] at hnd ⊢
      rw [List.nodup_cons] at hnd
      obtain ⟨hn, hnd'⟩ := hnd
      unfold p_cat_fun
      simp only [List.map_cons]
      refine congrArg₂ List.cons ?_ ?_
      · by_cases hc : n ∈ est
        · simp [hc, split_est, List.filter_cons, lookupD]
        · simp [hc, split_set, List.filter_cons, lookupD]
      · have hstep : ∀ m ∈ tl.map Prod.fst,
            (if est.contains m then lookupD (split_est est ((n, v) :: tl)) m
             else lookupD (split_set est ((n, v) :: tl)) m) =
            (if est.contains m then lookupD (split_est est tl) m
             else lookupD (split_set est tl) m) := by
          intro m hm
          have hne : n ≠ m := fun he => hn (he ▸ hm)
          by_cases hc : est.contains m = true
          · rw [if_pos hc, if_pos hc]
            exact lookupD_split_est_cons_ne est n m v tl hne
          · rw [if_neg hc, if_neg hc]
            exact lookupD_split_set_cons_ne est n m v tl hne
        calc (tl.map Prod.fst).map (fun m =>
                if est.contains m then lookupD (split_est est ((n, v) :: tl)) m
                else lookupD (split_set est ((n, v) :: tl)) m)
            = (tl.map Prod.fst).map (fun m =>
                if est.contains m then lookupD (split_est est tl) m
                else lookupD (split_set est tl) m) := map_congr_mem _ _ _ hstep
          _ = tl.map Prod.snd := ih hnd'

/-- Concrete instance of C1: a three-parameter model with the middle
parameter estimated. -/
theorem p_cat_fun_recombines_witness :
    (([("a", (3 : ℤ)), ("b", 5), ("c", 7)].map Prod.fst).Nodup) ∧
    p_cat_fun ([("a", (3 : ℤ)), ("b", 5), ("c", 7)].map Prod.fst) ["b"]
        (split_est ["b"] [("a", 3), ("b", 5), ("c", 7)])
        (split_set ["b"] [("a", 3), ("b", 5), ("c", 7)]) =
      [("a", (3 : ℤ)), ("b", 5), ("c", 7)].map Prod.snd :=
  ⟨by decide, p_cat_fun_recombines ["b"] [("a", 3), ("b", 5), ("c", 7)] (by decide)⟩

/-!
Problem assembly sizes (`MHE._setup_mhe_optim_problem`, estimator.py
lines 436-568).  `n_total_coll_points` (called `coll` below) is the
number of intermediate collocation points returned by
`_setup_discretization`; the defect-vector size `g` returned by the
per-step transition function `ifcn` is likewise a free parameter — both
come from the discretization scheme, an opaque collaborator.
-/

/-- The sizes of the scalar entries of the decision-variable struct
`opt_x` (estimator.py lines 440-445):
`entry('_x', repeat=[n_horizon+1, 1+coll], struct=model._x)`,
`entry('_z', repeat=[n_horizon, 1+coll], struct=model._z)`,
`entry('_u', repeat=[n_horizon], struct=model._u)`,
`entry('_p_est', struct=_p_est)`. -/
def opt_x_blocks (n_horizon coll n_x n_z n_u n_p_est : Nat) : List Nat :=
  List.replicate ((n_horizon + 1) * (1 + coll)) n_x ++
    List.replicate (n_horizon * (1 + coll)) n_z ++
    List.replicate n_horizon n_u ++ [n_p_est]

/-- Total number of scalar decision variables, `self.n_opt_x =
self.opt_x.shape[0]` (estimator.py line 446). -/
def n_opt_x (n_horizon coll n_x n_z n_u n_p_est : Nat) : Nat :=
  (opt_x_blocks n_horizon coll n_x n_z n_u n_p_est).sum

/-- Modelled from the claim's words (for refinement comparison only):
the decision-variable size the claim describes — `(N+1)` state blocks
each replicated over `(1+coll)` points, plus `N` input blocks, plus one
estimated-parameter block, with no algebraic blocks. -/
def n_opt_x_claimed (n_horizon coll n_x n_u n_p_est : Nat) : Nat :=
  (n_horizon + 1) * ((1 + coll) * n_x) + n_horizon * n_u + n_p_est

/-- One entry appended to the constraint list `cons` during the horizon
loop (estimator.py lines 502-522): the discretization-defect equality
`g_ksb`, the continuity equality `xf_ksb - opt_x['_x', k+1, -1]`, or the
user path constraints `nl_cons_k`. -/
inductive ConsEntry where
  | defect (size : Nat)
  | continuity (size : Nat)
  | nlCons (size : Nat)
deriving Repr, DecidableEq

def ConsEntry.isDefect : ConsEntry → Bool
  | ConsEntry.defect _ => true
  | _ => false

def ConsEntry.isContinuity : ConsEntry → Bool
  | ConsEntry.continuity _ => true
  | _ => false

/-- The constraint list assembled by the loop `for k in
range(self.n_horizon)` (estimator.py lines 502-522): each iteration
appends one defect block, one continuity block (of size `n_x`), and one
path-constraint block. -/
def mhe_cons (n_horizon g n_x nl : Nat) : List ConsEntry :=
  (List.range n_horizon).flatMap
    (fun _ => [ConsEntry.defect g, ConsEntry.continuity n_x, ConsEntry.nlCons nl])

/-- One term accumulated into the objective scalar: the arrival cost
(line 489-496) or a per-step stage cost `obj += self.obj_fun(...)`
(line 525-528). -/
inductive ObjTerm where
  | arrival
  | stage (k : Nat)
deriving Repr, DecidableEq

def ObjTerm.isStage : ObjTerm → Bool
  | ObjTerm.stage _ => true
  | _ => false

/-- The objective accumulation sequence: arrival cost once, then one
stage cost per horizon step. -/
def mhe_obj_terms (n_horizon : Nat) : List ObjTerm :=
  ObjTerm.arrival :: (List.range n_horizon).map ObjTerm.stage

theorem mhe_cons_succ (n g n_x nl : Nat) :
    mhe_cons (n + 1) g n_x nl =
      mhe_cons n g n_x nl ++
        [ConsEntry.defect g, ConsEntry.continuity n_x, ConsEntry.nlCons nl] := by
  simp [mhe_cons, List.range_succ]

theorem mhe_cons_count_defect (n g n_x nl : Nat) :
    (mhe_cons n g n_x nl).countP ConsEntry.isDefect = n := by
  induction n with
  | zero => rfl
  | succ k ih =>
      rw [mhe_cons_succ, List.countP_append, ih]
      rfl

theorem mhe_cons_count_continuity (n g n_x nl : Nat) :
    (mhe_cons n g n_x nl).countP ConsEntry.isContinuity = n := by
  induction n with
  | zero => rfl
  | succ k ih =>
      rw [mhe_cons_succ, List.countP_append, ih]
      rfl

theorem mhe_obj_count_stage (n : Nat) :
    (mhe_obj_terms n).countP ObjTerm.isStage = n := by
  have h : ∀ m : Nat, ((List.range m).map ObjTerm.stage).countP ObjTerm.isStage = m := by
    intro m
    induction m with
    | zero => rfl
    | succ k ih =>
        rw [List.range_succ, List.map_append, List.countP_append, ih]
        rfl
  simp only [mhe_obj_terms, List.countP_cons]
  rw [h]
  rfl

/-- Claim C2 as stated is false: the decision-variable vector also
contains `N` algebraic blocks, each replicated over `(1+coll)` points.
With `N = 1`, one collocation point, and one variable in each category,
the assembled size is 8 while the claim's composition gives 6. -/
theorem opt_x_composition_counterexample :
    n_opt_x 1 1 1 1 1 1 ≠ n_opt_x_claimed 1 1 1 1 1 := by decide

/-- Claim C2, amended: assembling with horizon length `N` produces
exactly `N` discretization-defect constraint blocks, `N` continuity
constraint blocks, and `N` stage-cost accumulations in the objective;
the decision-variable vector consists of `(N+1)` state blocks each
replicated over `(1+coll)` points, plus `N` algebraic blocks each
replicated over `(1+coll)` points, plus `N` input blocks, plus one
estimated-parameter block. -/
theorem mhe_assembly_counts (n_horizon coll n_x n_z n_u n_p_est g nl : Nat) :
    (mhe_cons n_horizon g n_x nl).countP ConsEntry.isDefect = n_horizon ∧
    (mhe_cons n_horizon g n_x nl).countP ConsEntry.isContinuity = n_horizon ∧
    (mhe_obj_terms n_horizon).countP ObjTerm.isStage = n_horizon ∧
    n_opt_x n_horizon coll n_x n_z n_u n_p_est =
      (n_horizon + 1) * ((1 + coll) * n_x) + n_horizon * ((1 + coll) * n_z) +
        n_horizon * n_u + n_p_est := by
  refine ⟨mhe_cons_count_defect _ _ _ _, mhe_cons_count_continuity _ _ _ _,
    mhe_obj_count_stage _, ?_⟩
  simp only [n_opt_x, opt_x_blocks, List.sum_append, List.sum_replicate, smul_eq_mul,
    List.sum_cons, List.sum_nil]
  ring

/-!
Estimator state.  The MHE class mixes the `Estimator` base (estimator.py
lines 34-77: `_x0`, `_u0`, `_z0`, `_t0`, `data`) with the `Optimizer`
base (bounds and scaling structures) and its own fields (lines 95-171).
Stored callbacks and the solver handle are modelled as `Option`-valued
fields: `none` means the Python attribute does not exist yet, so
accessing it raises an `AttributeError`.
-/

/-- The model interface consumed by the estimator: ordered symbol names
per category (sizes are the list lengths) and the setup flag asserted in
`Estimator.__init__` (line 38). -/
structure Model where
  setup_flag : Bool
  x_syms : List String
  u_syms : List String
  z_syms : List String
  tvp_syms : List String
  y_syms : List String
  p_names : List String
  aux_syms : List String
deriving Repr, DecidableEq

/-- The lifecycle flags dictionary (estimator.py lines 165-171). -/
structure MHEFlags where
  setup : Bool
  set_tvp_fun : Bool
  set_p_fun : Bool
  set_y_fun : Bool
  set_objective : Bool
deriving Repr, DecidableEq

/-- Error taxonomy.  Each constructor corresponds to a raise site in the
source: `configurationError` to the `raise Exception(...)` calls for
missing registrations, `shapeMismatchError` to the shape/label asserts,
`domainError` to the free-symbol subset asserts in `set_objective`,
`boundsError` to the inconsistent-bounds raise in `check_validity`
(carrying the offending labels), `stateError` to the
`assert self.flags['setup'] == False` guards, `typeError` to the
unsupported-type raise in `set_initial_state`, and `attributeError` to a
Python `AttributeError` from touching an attribute that does not exist
yet. -/
inductive EstError where
  | configurationError (msg : String)
  | shapeMismatchError (msg : String)
  | domainError (msg : String)
  | boundsError (labels : List String)
  | stateError (msg : String)
  | typeError (msg : String)
  | attributeError (msg : String)
deriving Repr, DecidableEq

def EstError.isStateErr : EstError → Bool
  | EstError.stateError _ => true
  | _ => false

def isOkB {ε α : Type} : Except ε α → Bool
  | Except.ok _ => true
  | Except.error _ => false

/-- Modelled from the spec: the history sink (`do_mpc.data.Data`, not
under src/) is append-only per-field storage; `update(**named_values)`
appends one value per named field and `init_storage()` clears all
fields. -/
structure DataStore where
  y : List (List ℤ)
  x : List (List ℤ)
  u : List (List ℤ)
  z : List (List ℤ)
  p : List (List ℤ)
  time : List ℤ
  aux : List (List ℤ)
deriving Repr, DecidableEq

/-- Modelled from the spec: `Data.init_storage` clears every recorded
trajectory. -/
def DataStore.init_storage : DataStore :=
  { y := [], x := [], u := [], z := [], p := [], time := [], aux := [] }

/-- A bound category (for example `_x_lb`/`_x_ub`): one entry per
component, holding its label, lower bound and upper bound.  The default
bounds are minus/plus infinity, which satisfy every consistency check;
only caller-declared finite bounds are represented. -/
abbrev BoundCat := List (String × ℤ × ℤ)

/-- The labels for which `lb.cat > ub.cat` holds, in component order —
`bound_fail` in `check_validity` (estimator.py lines 313-314). -/
def bound_fail (c : BoundCat) : List String :=
  (c.filter (fun e => decide (e.2.2 < e.2.1))).map Prod.fst

/-- The `for lb, ub in zip(...)` loop of `check_validity` (lines
311-316): the first category containing a violated pair determines the
raised error; its full label list is reported. -/
def bounds_check_result : List BoundCat → Option (List String)
  | [] => none
  | c :: cs =>
      if bound_fail c = [] then bounds_check_result cs else some (bound_fail c)

/-- The numeric decision-variable buffer `opt_x_num` (the solver
solution, doubling as the next warm start): `(n_horizon+1)` state blocks
of `(1+coll)` points, `n_horizon` algebraic blocks of `(1+coll)` points,
`n_horizon` input blocks, and the estimated-parameter vector. -/
structure OptXNum where
  x : List (List (List ℤ))
  z : List (List (List ℤ))
  u : List (List ℤ)
  p_est : List ℤ
deriving Repr, DecidableEq

/-- The numeric optimization-parameter buffer `opt_p_num` (estimator.py
lines 461-468 declare the matching symbolic struct). -/
structure OptPNum where
  x_prev : List ℤ
  p_prev : List ℤ
  p_set : List (String × ℤ)
  tvp : List (List ℤ)
  y_meas : List (List ℤ)
deriving Repr, DecidableEq

/-- A symbolic casadi expression, modelled by the data `set_objective`
inspects: its shape and the names of its free symbols (`symvar`).
Symbols of the previous-window aliases (`_x_prev`, `_p_prev`, created by
`copy.copy` with identical names but distinct identities) are
distinguished by a `prev_` tag. -/
structure SymExpr where
  shape : Nat × Nat
  symvars : List String
deriving Repr, DecidableEq

/-- The complete estimator state: model reference and partition choice,
lifecycle flags, `set_param` fields, bounds, the persistent numeric
values of the `Estimator` base, scaling structures, stored callbacks,
numeric buffers, the solver handle, and the history sink.  The
measurement callback receives the current `data._y` history explicitly
because the Python default callback is a closure over `self.data`. -/
structure MHEState where
  model : Model
  p_est_list : List String
  flags : MHEFlags
  meas_from_data : Bool
  n_horizon : Nat
  t_step : ℤ
  nlpsol_opts : List (String × String)
  x_bounds : BoundCat
  u_bounds : BoundCat
  z_bounds : BoundCat
  p_est_bounds : BoundCat
  x0 : List ℤ
  u0 : List ℤ
  z0 : List ℤ
  p_est0 : List ℤ
  t0 : ℤ
  x_scaling : List ℤ
  u_scaling : List ℤ
  z_scaling : List ℤ
  p_est_scaling : List ℤ
  tvp_fun : Option (ℤ → List (List ℤ))
  p_fun : Option (ℤ → List (String × ℤ))
  y_fun : Option (List (List ℤ) → ℤ → List (List ℤ))
  opt_x_num : Option OptXNum
  opt_p_num : Option OptPNum
  opt_aux_num : Option (List (List ℤ))
  S : Option (OptXNum → OptPNum → OptXNum)
  aux_fun : Option (OptXNum → OptPNum → List (List ℤ))
  solver_opts_used : List (String × String)
  data : DataStore

/-- `MHE.__init__` (estimator.py lines 95-171).  The only check is the
`Estimator.__init__` assert that the model was set up (line 38); the
`p_est_list` argument is used purely as a membership filter over the
model's parameter names, so names absent from the model never raise.
Default `set_param` fields per lines 114-127; bounds default to
minus/plus infinity (modelled as no declared finite entries); scaling
defaults to one; the `Estimator` base initializes `_x0`, `_u0`, `_z0`
to zero and `_t0` to 0.  `n_horizon` has no default in the source (it
must be supplied via `set_param`); 0 stands for the unset value. -/
def mhe_init (model : Model) (p_est_list : List String) :
    Except EstError MHEState :=
  if model.setup_flag = false then
    Except.error (EstError.configurationError "model_not_setup")
  else
    Except.ok {
      model := model
      p_est_list := p_est_list
      flags := { setup := false, set_tvp_fun := false, set_p_fun := false,
                 set_y_fun := false, set_objective := false }
      meas_from_data := false
      n_horizon := 0
      t_step := 0
      nlpsol_opts := []
      x_bounds := []
      u_bounds := []
      z_bounds := []
      p_est_bounds := []
      x0 := List.replicate model.x_syms.length 0
      u0 := List.replicate model.u_syms.length 0
      z0 := List.replicate model.z_syms.length 0
      p_est0 := List.replicate (p_est_names model.p_names p_est_list).length 0
      t0 := 0
      x_scaling := List.replicate model.x_syms.length 1
      u_scaling := List.replicate model.u_syms.length 1
      z_scaling := List.replicate model.z_syms.length 1
      p_est_scaling := List.replicate (p_est_names model.p_names p_est_list).length 1
      tvp_fun := none
      p_fun := none
      y_fun := none
      opt_x_num := none
      opt_p_num := none
      opt_aux_num := none
      S := none
      aux_fun := none
      solver_opts_used := []
      data := DataStore.init_storage }

/-- The accepted runtime types of the `x0` argument of
`set_initial_state` (estimator.py lines 63-68): `np.ndarray`,
`casadi.DM`, `structure3.DMStruct`, or anything else. -/
inductive X0Type where
  | ndarray
  | dm
  | dmstruct
  | other
deriving Repr, DecidableEq

/-- `Estimator.reset_history` (estimator.py lines 73-76). -/
def reset_history (s : MHEState) : MHEState :=
  { s with data := DataStore.init_storage }

/-- `Estimator.set_initial_state` (estimator.py lines 49-71): asserts
the size of `x0` against `model._x.size` before anything is assigned,
then dispatches on the runtime type of `x0` (unsupported types raise
before assignment), assigns `_x0`, and finally optionally resets the
history. -/
def set_initial_state (s : MHEState) (x0 : List ℤ) (ty : X0Type)
    (reset_hist : Bool) : MHEState × Except EstError Unit :=
  if x0.length ≠ s.model.x_syms.length then
    (s, Except.error (EstError.shapeMismatchError "x0_size"))
  else
    match ty with
    | X0Type.other => (s, Except.error (EstError.typeError "x0_type"))
    | _ =>
        let s1 := { s with x0 := x0 }
        if reset_hist then (reset_history s1, Except.ok ())
        else (s1, Except.ok ())

/-- Free symbols allowed in the stage cost (estimator.py line 264):
`model._x, _u, _z, _tvp, _p, _y_meas`. -/
def obj_allowed_syms (s : MHEState) : List String :=
  s.model.x_syms ++ s.model.u_syms ++ s.model.z_syms ++ s.model.tvp_syms ++
    s.model.p_names ++ s.model.y_syms

/-- Free symbols allowed in the arrival cost (estimator.py line 268):
`_x, _x_prev, _p_est, _p_prev` (the `prev_` tag models the distinct
symbol identity of the `copy.copy` aliases). -/
def arrival_allowed_syms (s : MHEState) : List String :=
  s.model.x_syms ++ s.model.x_syms.map (fun n => "prev_" ++ n) ++
    p_est_names s.model.p_names s.p_est_list ++
    (p_est_names s.model.p_names s.p_est_list).map (fun n => "prev_" ++ n)

/-- `MHE.set_objective` (estimator.py lines 258-272), with the asserts
in source order: shape of `obj`, shape of `arrival_cost`, the setup
guard, then the two free-symbol domain checks; on success the
expressions are compiled (symbolic, not modelled numerically) and the
`set_objective` flag is raised. -/
def set_objective (s : MHEState) (obj arrival_cost : SymExpr) :
    MHEState × Except EstError Unit :=
  if obj.shape ≠ (1, 1) then
    (s, Except.error (EstError.shapeMismatchError "obj_shape"))
  else if arrival_cost.shape ≠ (1, 1) then
    (s, Except.error (EstError.shapeMismatchError "arrival_cost_shape"))
  else if s.flags.setup = true then
    (s, Except.error (EstError.stateError "set_objective_after_setup"))
  else if !(obj.symvars.all (fun n => (obj_allowed_syms s).contains n)) then
    (s, Except.error (EstError.domainError "obj_symvars"))
  else if !(arrival_cost.symvars.all (fun n => (arrival_allowed_syms s).contains n)) then
    (s, Except.error (EstError.domainError "arrival_cost_symvars"))
  else
    ({ s with flags := { s.flags with set_objective := true } }, Except.ok ())

/-- `MHE.get_p_template` (estimator.py lines 274-277): the zero-valued
fixed-parameter struct. -/
def get_p_template (s : MHEState) : List (String × ℤ) :=
  (p_set_names s.model.p_names s.p_est_list).map (fun n => (n, (0 : ℤ)))

/-- `Optimizer.get_tvp_template` evaluated at zero: `n_horizon` entries
of a zero time-varying-parameter vector. -/
def get_tvp_template (s : MHEState) : List (List ℤ) :=
  List.replicate s.n_horizon (List.replicate s.model.tvp_syms.length 0)

/-- `MHE.set_p_fun` (estimator.py lines 279-284): accepts the callback
iff its output labels (at time 0) equal the template labels; there is no
setup-flag guard.  On success the callback is stored and the flag
raised. -/
def set_p_fun (s : MHEState) (pf : ℤ → List (String × ℤ)) :
    MHEState × Except EstError Unit :=
  if (pf 0).map Prod.fst = (get_p_template s).map Prod.fst then
    ({ s with p_fun := some pf,
              flags := { s.flags with set_p_fun := true } }, Except.ok ())
  else
    (s, Except.error (EstError.shapeMismatchError "p_fun_labels"))

/-- Structural agreement with `get_y_template` (estimator.py lines
286-290): `n_horizon` repeats of the measurement struct.  Label-list
equality of the casadi structs is equivalent to this shape agreement. -/
def y_shape_matches (s : MHEState) (traj : List (List ℤ)) : Bool :=
  (traj.length == s.n_horizon) &&
    traj.all (fun v => v.length == s.model.y_syms.length)

/-- `MHE.set_y_fun` (estimator.py lines 292-295): accepts the callback
iff its output (evaluated once, against the current history) matches the
template structure; no setup-flag guard.  The callback receives the
current `data._y` history explicitly because the default callback is a
closure over `self.data`. -/
def set_y_fun (s : MHEState) (yf : List (List ℤ) → ℤ → List (List ℤ)) :
    MHEState × Except EstError Unit :=
  if y_shape_matches s (yf s.data.y 0) = true then
    ({ s with y_fun := some yf,
              flags := { s.flags with set_y_fun := true } }, Except.ok ())
  else
    (s, Except.error (EstError.shapeMismatchError "y_fun_labels"))

/-- The default history-based measurement callback injected by
`check_validity` (estimator.py lines 334-343): the last
`n_steps = min(len(data._y), n_horizon)` template entries take the most
recent measurements; the leading entries are padded with the oldest
sample of that window (`data._y[-n_steps]`); if the history is empty the
padding loop raises `IndexError`, is swallowed by the bare `except`, and
the template stays zero. -/
def default_y_fun (n_horizon n_y : Nat) (data_y : List (List ℤ)) (_t : ℤ) :
    List (List ℤ) :=
  let n_steps := min data_y.length n_horizon
  if n_steps = 0 then
    List.replicate n_horizon (List.replicate n_y 0)
  else
    List.replicate (n_horizon - n_steps)
        (data_y.getD (data_y.length - n_steps) (List.replicate n_y 0)) ++
      data_y.drop (data_y.length - n_steps)

/-- The dummy-callback injections of `check_validity` (estimator.py
lines 318-329): a constant zero-template tvp callback when `tvp_fun` is
absent, and a constant zero-template fixed-parameter callback when
`p_fun` is absent; each injection goes through the corresponding
`set_*_fun`, raising its flag. -/
def inject_defaults (s : MHEState) : MHEState :=
  let s1 := if s.tvp_fun.isNone then
      { s with tvp_fun := some (fun _ => get_tvp_template s),
               flags := { s.flags with set_tvp_fun := true } }
    else s
  if s1.p_fun.isNone then
    { s1 with p_fun := some (fun _ => get_p_template s1),
              flags := { s1.flags with set_p_fun := true } }
  else s1

theorem inject_defaults_set_y_fun (s : MHEState) :
    (inject_defaults s).flags.set_y_fun = s.flags.set_y_fun := by
  by_cases ht : s.tvp_fun.isNone <;> by_cases hp : s.p_fun.isNone <;>
    simp [inject_defaults, ht, hp]

theorem inject_defaults_meas_from_data (s : MHEState) :
    (inject_defaults s).meas_from_data = s.meas_from_data := by
  by_cases ht : s.tvp_fun.isNone <;> by_cases hp : s.p_fun.isNone <;>
    simp [inject_defaults, ht, hp]

/-- `MHE.check_validity` (estimator.py lines 298-346), in source order:
objective flag; tvp callback required when the model declares
time-varying parameters; fixed-parameter callback required when `_p_set`
is non-empty; the bound-consistency loop over the state, input and
algebraic categories (estimated-parameter bounds are never inspected);
injection of trivial tvp/p callbacks when the attributes are absent;
finally the measurement branch: the default history-based callback is
injected when no y-callback is set and `meas_from_data` holds — in
every other case, including the case where a y-callback was explicitly
registered, the `else` raises the missing-measurement-function error. -/
def check_validity (s : MHEState) : MHEState × Except EstError Unit :=
  if s.flags.set_objective = false then
    (s, Except.error (EstError.configurationError "objective_undefined"))
  else if s.flags.set_tvp_fun = false ∧ 0 < s.model.tvp_syms.length then
    (s, Except.error (EstError.configurationError "tvp_fun_missing"))
  else if s.flags.set_p_fun = false ∧
      0 < (p_set_names s.model.p_names s.p_est_list).length then
    (s, Except.error (EstError.configurationError "p_fun_missing"))
  else
    match bounds_check_result [s.x_bounds, s.u_bounds, s.z_bounds] with
    | some labels => (s, Except.error (EstError.boundsError labels))
    | none =>
        let s2 := inject_defaults s
        if s2.flags.set_y_fun = false ∧ s2.meas_from_data = true then
          ({ s2 with
              y_fun := some (default_y_fun s2.n_horizon s2.model.y_syms.length),
              flags := { s2.flags with set_y_fun := true } }, Except.ok ())
        else
          (s2, Except.error (EstError.configurationError "measurement_fun_missing"))

/-- The default solver options dict literal of
`_setup_mhe_optim_problem` (estimator.py lines 554-557). -/
def default_nlpsol_opts : List (String × String) :=
  [("expand", "False"), ("ipopt.linear_solver", "mumps")]

/-- Python `dict.update` merge semantics: entries of `upd` override
entries of `base` with the same key; keys only in `base` are retained.
This is the value held by the *receiver* after `base.update(upd)` —
the expression itself evaluates to `None` in Python. -/
def dict_update (base upd : List (String × String)) : List (String × String) :=
  base.map (fun e =>
    match upd.find? (fun w => w.1 == e.1) with
    | some w => w
    | none => e) ++
  upd.filter (fun w => !(base.any (fun e => e.1 == w.1)))

/-- The options actually handed to `nlpsol` (estimator.py line 559):
`self.nlpsol_opts`, the caller-supplied dict alone.  The merged local
`nlpsol_opts` of lines 554-557 is `None` (Python `dict.update` returns
`None`) and is never used. -/
def nlpsol_opts_passed (user : List (String × String)) :
    List (String × String) := user

/-- `MHE.set_initial_guess` (estimator.py lines 349-360): every state,
input, algebraic and estimated-parameter entry of `opt_x_num` is seeded
from the current initial values divided by the scaling. -/
def set_initial_guess_vals (s : MHEState) (coll : Nat) : OptXNum :=
  { x := List.replicate (s.n_horizon + 1)
      (List.replicate (1 + coll) (List.zipWith (· / ·) s.x0 s.x_scaling))
    z := List.replicate s.n_horizon
      (List.replicate (1 + coll) (List.zipWith (· / ·) s.z0 s.z_scaling))
    u := List.replicate s.n_horizon (List.zipWith (· / ·) s.u0 s.u_scaling)
    p_est := List.zipWith (· / ·) s.p_est0 s.p_est_scaling }

/-- `MHE.setup` (estimator.py lines 362-387): collects metadata, runs
`check_validity`, assembles the optimization problem
(`_setup_mhe_optim_problem`, which constructs the solver handle from
`nlpsol` — an external constructor, passed in as `solver`/`aux_eval` —
and allocates the zero numeric buffers), sets the `setup` flag, and
seeds the initial guess.  There is no guard against calling `setup`
twice.  `coll` is the number of intermediate collocation points from
`_setup_discretization`. -/
def setup (solver : OptXNum → OptPNum → OptXNum)
    (aux_eval : OptXNum → OptPNum → List (List ℤ)) (coll : Nat)
    (s : MHEState) : MHEState × Except EstError Unit :=
  match check_validity s with
  | (s1, Except.error e) => (s1, Except.error e)
  | (s1, Except.ok _) =>
      let s2 := { s1 with
        flags := { s1.flags with setup := true }
        S := some solver
        aux_fun := some aux_eval
        solver_opts_used := nlpsol_opts_passed s1.nlpsol_opts
        opt_p_num := some
          { x_prev := List.replicate s1.model.x_syms.length 0
            p_prev := List.replicate
              (p_est_names s1.model.p_names s1.p_est_list).length 0
            p_set := get_p_template s1
            tvp := List.replicate s1.n_horizon
              (List.replicate s1.model.tvp_syms.length 0)
            y_meas := List.replicate s1.n_horizon
              (List.replicate s1.model.y_syms.length 0) }
        opt_aux_num := some (List.replicate s1.n_horizon
          (List.replicate s1.model.aux_syms.length 0)) }
      ({ s2 with opt_x_num := some (set_initial_guess_vals s2 coll) },
        Except.ok ())

/-- `MHE.make_step` (estimator.py lines 389-434).  The measurement is
appended to the history sink first (line 391); only afterwards are the
callback attributes, the parameter buffer, the solver handle and the
solution buffers touched — an attribute that does not exist yet (before
`setup`) raises at its access site, after the history mutation.  In the
success path: the parameter buffer is filled from the callbacks and the
previous estimates; the solver (modelled from the spec:
`Optimizer.solve` is the `Optimizer` base's wrapper, not under src/,
which overwrites `opt_x_num` with the returned solution and evaluates
`opt_aux_num` from it) is invoked; then the last state/input/algebraic
values are extracted and scaled, the full parameter vector is
recombined via `_p_cat_fun` from the *previous* `p_est0` (the local
`p_est0` bound on line 394, before line 413 rebinds `self._p_est0`) and
the current fixed parameters; the history sink receives the *previous*
state `x0` (line 420) together with the extracted input, algebraic
value, recombined parameters, the pre-increment time, and the last
auxiliary block; finally the clock advances and the stored estimates
are overwritten with the extracted values, and the extracted state is
returned. -/
def make_step (s : MHEState) (y0 : List ℤ) :
    MHEState × Except EstError (List ℤ) :=
  let d1 : DataStore := { s.data with y := s.data.y ++ [y0] }
  match s.tvp_fun with
  | none => ({ s with data := d1 }, Except.error (EstError.attributeError "tvp_fun"))
  | some tf =>
  match s.p_fun with
  | none => ({ s with data := d1 }, Except.error (EstError.attributeError "p_fun"))
  | some pf =>
  match s.y_fun with
  | none => ({ s with data := d1 }, Except.error (EstError.attributeError "y_fun"))
  | some yf =>
  match s.opt_p_num with
  | none => ({ s with data := d1 }, Except.error (EstError.attributeError "opt_p_num"))
  | some _ =>
  match s.S, s.aux_fun, s.opt_x_num with
  | some S0, some af, some oxn =>
      let t0 := s.t0
      let tvp0 := tf t0
      let p_set0 := pf t0
      let y_traj := yf d1.y t0
      let opt_p : OptPNum :=
        { x_prev := s.x0, p_prev := s.p_est0, p_set := p_set0,
          tvp := tvp0, y_meas := y_traj }
      let sol := S0 oxn opt_p
      let aux := af sol opt_p
      let x_next := List.zipWith (· * ·) ((sol.x.getLastD []).getLastD []) s.x_scaling
      let p_est_next := List.zipWith (· * ·) sol.p_est s.p_est_scaling
      let u0v := List.zipWith (· * ·) (sol.u.getLastD []) s.u_scaling
      let z0v := List.zipWith (· * ·) ((sol.z.getLastD []).getLastD []) s.z_scaling
      let aux0 := aux.getLastD []
      let p0 := p_cat_fun s.model.p_names s.p_est_list
        ((p_est_names s.model.p_names s.p_est_list).zip s.p_est0) p_set0
      let d2 : DataStore :=
        { d1 with x := d1.x ++ [s.x0], u := d1.u ++ [u0v], z := d1.z ++ [z0v],
                  p := d1.p ++ [p0], time := d1.time ++ [t0],
                  aux := d1.aux ++ [aux0] }
      ({ s with data := d2, t0 := s.t0 + s.t_step, x0 := x_next,
                p_est0 := p_est_next, u0 := u0v, z0 := z0v,
                opt_x_num := some sol, opt_p_num := some opt_p,
                opt_aux_num := some aux },
        Except.ok x_next)
  | _, _, _ => ({ s with data := d1 }, Except.error (EstError.attributeError "S"))

/-!
Concrete instances used by counterexamples and witnesses.
-/

/-- A minimal set-up model: one state, one input, one measurement, no
algebraic variables, no time-varying parameters, no parameters. -/
def model0 : Model :=
  { setup_flag := true, x_syms := ["x1"], u_syms := ["u1"], z_syms := [],
    tvp_syms := [], y_syms := ["y1"], p_names := [], aux_syms := [] }

/-- The freshly constructed estimator for `model0` with an empty
`p_est_list` and `n_horizon = 1`, `t_step = 1` set via `set_param`. -/
def base_state : MHEState :=
  { model := model0
    p_est_list := []
    flags := { setup := false, set_tvp_fun := false, set_p_fun := false,
               set_y_fun := false, set_objective := false }
    meas_from_data := false
    n_horizon := 1
    t_step := 1
    nlpsol_opts := []
    x_bounds := []
    u_bounds := []
    z_bounds := []
    p_est_bounds := []
    x0 := [0]
    u0 := [0]
    z0 := []
    p_est0 := []
    t0 := 0
    x_scaling := [1]
    u_scaling := [1]
    z_scaling := []
    p_est_scaling := []
    tvp_fun := none
    p_fun := none
    y_fun := none
    opt_x_num := none
    opt_p_num := none
    opt_aux_num := none
    S := none
    aux_fun := none
    solver_opts_used := []
    data := DataStore.init_storage }

/-- `base_state` after `set_objective` and `set_param(meas_from_data =
True)`: a configuration from which `setup()` succeeds. -/
def pre_state : MHEState :=
  { base_state with
    flags := { setup := false, set_tvp_fun := false, set_p_fun := false,
               set_y_fun := false, set_objective := true }
    meas_from_data := true }

def triv_solver : OptXNum → OptPNum → OptXNum := fun guess _ => guess

def triv_aux : OptXNum → OptPNum → List (List ℤ) := fun _ _ => [[]]

/-- A fully set-up estimator: the state produced by `setup()` from
`pre_state` with one collocation point. -/
def ready_state : MHEState := (setup triv_solver triv_aux 1 pre_state).1

/-- A configuration in which all callbacks are explicitly registered,
including the measurement callback, and `meas_from_data` is left at its
default `False`. -/
def state_c3 : MHEState :=
  { base_state with
    flags := { setup := false, set_tvp_fun := true, set_p_fun := true,
               set_y_fun := true, set_objective := true }
    tvp_fun := some (fun _ => [[]])
    p_fun := some (fun _ => [])
    y_fun := some (fun _ _ => [[0]])
    meas_from_data := false }

/-- Claim C3 names a code bug: an explicitly registered measurement
callback (`set_y_fun` flag true) makes `check_validity` raise the
missing-measurement-function error, because the `else` branch of the
`meas_from_data` injection (estimator.py lines 331-346) covers the
registered-callback case; the raised message — use `.set_y_fun` or set
`meas_from_data` — contradicts the fact that `.set_y_fun` was used.
The claim (failure iff neither a callback nor the flag) is the evident
intent. -/
theorem check_validity_rejects_registered_y_fun :
    state_c3.flags.set_y_fun = true ∧
    (check_validity state_c3).2 =
      Except.error (EstError.configurationError "measurement_fun_missing") :=
  ⟨rfl, rfl⟩

/-- Claim C6 as stated is false: `make_step` before `setup()` first
appends the measurement to the history sink (estimator.py line 391) and
only then fails, with an `AttributeError` from the missing callback
attribute — not a `StateError`, and not before mutation. -/
theorem make_step_before_setup_counterexample :
    (make_step base_state [1]).1.data.y = [[1]] ∧
    (make_step base_state [1]).2 =
      Except.error (EstError.attributeError "tvp_fun") :=
  ⟨rfl, rfl⟩

/-- Claim C6, amended: in any state in which the solver handle has not
been constructed (which holds exactly when `setup()` has not completed,
since only `_setup_mhe_optim_problem` assigns it), `make_step` fails —
but with an attribute error rather than a `StateError`, and only after
the measurement has been appended to the history sink. -/
theorem make_step_before_setup (s : MHEState) (y0 : List ℤ)
    (hS : s.S = none) :
    (make_step s y0).1.data.y = s.data.y ++ [y0] ∧
    (∃ e, (make_step s y0).2 = Except.error e ∧ e.isStateErr = false) := by
  rcases h1 : s.tvp_fun with _ | tf <;>
    rcases h2 : s.p_fun with _ | pf <;>
      rcases h3 : s.y_fun with _ | yf <;>
        rcases h4 : s.opt_p_num with _ | op <;>
          simp only [make_step, h1, h2, h3, h4, hS] <;>
            exact ⟨trivial, ⟨_, rfl, rfl⟩⟩

theorem make_step_before_setup_witness :
    base_state.S = none ∧
    ((make_step base_state [2]).1.data.y = base_state.data.y ++ [[2]] ∧
      (∃ e, (make_step base_state [2]).2 = Except.error e ∧
        e.isStateErr = false)) :=
  ⟨rfl, make_step_before_setup base_state [2] rfl⟩

/-- Claim C8 names a code bug: `{'expand': False,
'ipopt.linear_solver': 'mumps'}.update(self.nlpsol_opts)` evaluates to
`None` in Python (dict.update mutates and returns `None`), the merged
dict is discarded, and `nlpsol` is called with `self.nlpsol_opts`
alone (estimator.py lines 554-559) — here evaluated at the default
empty caller dict: the solver receives no options at all, although the
intended merge (per the comment on line 127, which this slip
contradicts) is the non-empty default set. -/
theorem nlpsol_opts_defaults_dropped :
    (setup triv_solver triv_aux 1 pre_state).1.solver_opts_used = [] ∧
    dict_update default_nlpsol_opts [] = default_nlpsol_opts ∧
    default_nlpsol_opts ≠ [] :=
  ⟨rfl, rfl, by decide⟩

/-- A set-up model with two parameters. -/
def model_c9 : Model := { model0 with p_names := ["a", "b"] }

/-- Claim C9 as stated is false: constructing the estimator with
`p_est_list = ['c']`, where `c` is not a model parameter, succeeds — the
comprehensions of `MHE.__init__` iterate over the model's keys, so the
unknown name is silently dropped rather than raising. -/
theorem mhe_init_unknown_name_ok :
    isOkB (mhe_init model_c9 ["c"]) = true := rfl

/-- Claim C9, amended: construction with an estimated-parameter name
list containing a name absent from the model's parameter set succeeds,
and the unknown name appears in neither the estimated nor the fixed
partition — it is silently ignored. -/
theorem mhe_init_ignores_unknown_names (m : Model) (l : List String)
    (n : String) (hm : m.setup_flag = true) (hn : n ∉ m.p_names) :
    isOkB (mhe_init m l) = true ∧ n ∉ p_est_names m.p_names l ∧
      n ∉ p_set_names m.p_names l := by
  refine ⟨?_, fun hmem => hn ?_, fun hmem => hn ?_⟩
  · simp [mhe_init, hm, isOkB]
  · exact List.mem_of_mem_filter hmem
  · exact List.mem_of_mem_filter hmem

theorem mhe_init_ignores_unknown_names_witness :
    model_c9.setup_flag = true ∧ ("c" ∉ model_c9.p_names) ∧
    (isOkB (mhe_init model_c9 ["c"]) = true ∧
      "c" ∉ p_est_names model_c9.p_names ["c"] ∧
      "c" ∉ p_set_names model_c9.p_names ["c"]) :=
  ⟨rfl, by decide, mhe_init_ignores_unknown_names model_c9 ["c"] "c" rfl (by decide)⟩

/-- Claim C10: `set_initial_state` succeeds exactly for size-matching
inputs of an accepted numeric type (`np.ndarray`, `casadi.DM`,
`structure3.DMStruct`), and on any failure — wrong size or unsupported
type — it raises before any assignment, leaving the stored initial
state, the history, and the clock unchanged (the returned state is the
input state). -/
theorem set_initial_state_size_guard (s : MHEState) (x0 : List ℤ)
    (ty : X0Type) (rh : Bool) :
    (isOkB (set_initial_state s x0 ty rh).2 = true ↔
      (x0.length = s.model.x_syms.length ∧ ty ≠ X0Type.other)) ∧
    (isOkB (set_initial_state s x0 ty rh).2 = false →
      (set_initial_state s x0 ty rh).1 = s) := by
  unfold set_initial_state
  by_cases h : x0.length = s.model.x_syms.length
  · rw [if_neg (fun hne => hne h)]
    cases ty <;> cases rh <;> simp [isOkB, h]
  · rw [if_pos h]
    simp [isOkB, h]

theorem set_initial_state_size_guard_witness :
    (isOkB (set_initial_state base_state [3, 4] X0Type.ndarray false).2 = true ↔
      (([3, 4] : List ℤ).length = base_state.model.x_syms.length ∧
        X0Type.ndarray ≠ X0Type.other)) ∧
    (isOkB (set_initial_state base_state [3, 4] X0Type.ndarray false).2 = false →
      (set_initial_state base_state [3, 4] X0Type.ndarray false).1 = base_state) :=
  set_initial_state_size_guard base_state [3, 4] X0Type.ndarray false

theorem setup_snd (solver : OptXNum → OptPNum → OptXNum)
    (aux_eval : OptXNum → OptPNum → List (List ℤ)) (coll : Nat)
    (s : MHEState) :
    (setup solver aux_eval coll s).2 = (check_validity s).2 := by
  unfold setup
  rcases h : check_validity s with ⟨s1, r⟩
  cases r <;> rfl

theorem bounds_check_result_none_iff (a b c : BoundCat) :
    bounds_check_result [a, b, c] = none ↔
      (bound_fail a = [] ∧ bound_fail b = [] ∧ bound_fail c = []) := by
  by_cases ha : bound_fail a = [] <;> by_cases hb : bound_fail b = [] <;>
    by_cases hc : bound_fail c = [] <;>
      simp [bounds_check_result, ha, hb, hc]

/-- A model with a single (estimated) parameter. -/
def model_c4 : Model := { model0 with p_names := ["p1"] }

/-- A valid configuration whose only anomaly is an inconsistent
estimated-parameter bound pair: lower bound 1, upper bound 0. -/
def state_c4 : MHEState :=
  { base_state with
    model := model_c4
    p_est_list := ["p1"]
    flags := { setup := false, set_tvp_fun := false, set_p_fun := false,
               set_y_fun := false, set_objective := true }
    meas_from_data := true
    p_est_bounds := [("p1", 1, 0)]
    p_est0 := [0]
    p_est_scaling := [1] }

/-- A valid configuration with violated bound pairs in two categories:
state (lower 1 > upper 0 on `x1`) and input (lower 3 > upper 2 on
`u1`). -/
def state_c4b : MHEState :=
  { base_state with
    flags := { setup := false, set_tvp_fun := false, set_p_fun := false,
               set_y_fun := false, set_objective := true }
    meas_from_data := true
    x_bounds := [("x1", 1, 0)]
    u_bounds := [("u1", 3, 2)] }

/-- Claim C4 as stated is false on two counts.  First, with an
estimated-parameter bound pair declared with lower = 1 > 0 = upper,
`setup()` still succeeds — the bound-consistency loop of
`check_validity` (estimator.py line 312) iterates only over the state,
input and algebraic categories and never inspects
`_p_est_lb`/`_p_est_ub`.  Second, the failure message does not name
every offending component: with both a state pair (`x1`) and an input
pair (`u1`) violated, the raised error carries only the state labels —
the offending `u1` goes unnamed, because the loop raises at the first
category containing a violation. -/
theorem setup_bounds_claim_counterexample :
    (bound_fail state_c4.p_est_bounds = ["p1"] ∧
      (setup triv_solver triv_aux 1 state_c4).2 = Except.ok ()) ∧
    (bound_fail state_c4b.u_bounds = ["u1"] ∧
      (setup triv_solver triv_aux 1 state_c4b).2 =
        Except.error (EstError.boundsError ["x1"]) ∧
      ("u1" : String) ∉ (["x1"] : List String)) :=
  ⟨⟨by decide, rfl⟩, ⟨by decide, rfl, by decide⟩⟩

theorem bounds_check_result_first (a b c : BoundCat)
    (ha : bound_fail a ≠ []) :
    bounds_check_result [a, b, c] = some (bound_fail a) := by
  simp [bounds_check_result, ha]

theorem bounds_check_result_second (a b c : BoundCat)
    (ha : bound_fail a = []) (hb : bound_fail b ≠ []) :
    bounds_check_result [a, b, c] = some (bound_fail b) := by
  simp [bounds_check_result, ha, hb]

theorem bounds_check_result_third (a b c : BoundCat)
    (ha : bound_fail a = []) (hb : bound_fail b = [])
    (hc : bound_fail c ≠ []) :
    bounds_check_result [a, b, c] = some (bound_fail c) := by
  simp [bounds_check_result, ha, hb, hc]

/-- Claim C4, amended: for a configuration that passes the registration
checks (objective set, tvp/p callbacks present where required) and
takes the default-measurement path, `setup()` succeeds iff lower ≤
upper componentwise for the state, input and algebraic bound
categories; estimated-parameter bounds are never checked.  A single
violated component suffices to fail, and the failure message names
every offending component of the first violating category, in the
checking order state, input, algebraic — offending components of later
categories go unnamed. -/
theorem setup_bounds_gate (solver : OptXNum → OptPNum → OptXNum)
    (aux_eval : OptXNum → OptPNum → List (List ℤ)) (coll : Nat)
    (s : MHEState)
    (h1 : s.flags.set_objective = true)
    (h2 : ¬(s.flags.set_tvp_fun = false ∧ 0 < s.model.tvp_syms.length))
    (h3 : ¬(s.flags.set_p_fun = false ∧
      0 < (p_set_names s.model.p_names s.p_est_list).length))
    (h4 : s.flags.set_y_fun = false) (h5 : s.meas_from_data = true) :
    (isOkB (setup solver aux_eval coll s).2 = true ↔
      (bound_fail s.x_bounds = [] ∧ bound_fail s.u_bounds = [] ∧
        bound_fail s.z_bounds = [])) ∧
    (bound_fail s.x_bounds ≠ [] →
      (setup solver aux_eval coll s).2 =
        Except.error (EstError.boundsError (bound_fail s.x_bounds))) ∧
    (bound_fail s.x_bounds = [] → bound_fail s.u_bounds ≠ [] →
      (setup solver aux_eval coll s).2 =
        Except.error (EstError.boundsError (bound_fail s.u_bounds))) ∧
    (bound_fail s.x_bounds = [] → bound_fail s.u_bounds = [] →
      bound_fail s.z_bounds ≠ [] →
      (setup solver aux_eval coll s).2 =
        Except.error (EstError.boundsError (bound_fail s.z_bounds))) := by
  rw [setup_snd]
  unfold check_validity
  rw [if_neg (by simp [h1]), if_neg h2, if_neg h3]
  rcases hb : bounds_check_result [s.x_bounds, s.u_bounds, s.z_bounds]
    with _ | labels
  · have hall := (bounds_check_result_none_iff _ _ _).mp hb
    simp only [hb]
    have hyy : (inject_defaults s).flags.set_y_fun = false ∧
        (inject_defaults s).meas_from_data = true := by
      rw [inject_defaults_set_y_fun, inject_defaults_meas_from_data]
      exact ⟨h4, h5⟩
    rw [if_pos hyy]
    refine ⟨?_, ?_, ?_, ?_⟩
    · simp only [isOkB]
      exact ⟨fun _ => hall, fun _ => trivial⟩
    · intro hx
      exact absurd hall.1 hx
    · intro _ hu
      exact absurd hall.2.1 hu
    · intro _ _ hz
      exact absurd hall.2.2 hz
  · simp only [hb]
    refine ⟨?_, ?_, ?_, ?_⟩
    · simp only [isOkB]
      constructor
      · intro hfalse
        exact absurd hfalse (by simp)
      · intro hall
        rw [(bounds_check_result_none_iff _ _ _).mpr hall] at hb
        exact absurd hb (by simp)
    · intro hx
      rw [bounds_check_result_first _ _ _ hx] at hb
      rw [Option.some_inj] at hb
      rw [hb]
    · intro hx0 hu
      rw [bounds_check_result_second _ _ _ hx0 hu] at hb
      rw [Option.some_inj] at hb
      rw [hb]
    · intro hx0 hu0 hz
      rw [bounds_check_result_third _ _ _ hx0 hu0 hz] at hb
      rw [Option.some_inj] at hb
      rw [hb]

theorem setup_bounds_gate_witness :
    (isOkB (setup triv_solver triv_aux 1 state_c4b).2 = true ↔
      (bound_fail state_c4b.x_bounds = [] ∧
        bound_fail state_c4b.u_bounds = [] ∧
        bound_fail state_c4b.z_bounds = [])) ∧
    (bound_fail state_c4b.x_bounds ≠ [] →
      (setup triv_solver triv_aux 1 state_c4b).2 =
        Except.error (EstError.boundsError (bound_fail state_c4b.x_bounds))) ∧
    (bound_fail state_c4b.x_bounds = [] → bound_fail state_c4b.u_bounds ≠ [] →
      (setup triv_solver triv_aux 1 state_c4b).2 =
        Except.error (EstError.boundsError (bound_fail state_c4b.u_bounds))) ∧
    (bound_fail state_c4b.x_bounds = [] → bound_fail state_c4b.u_bounds = [] →
      bound_fail state_c4b.z_bounds ≠ [] →
      (setup triv_solver triv_aux 1 state_c4b).2 =
        Except.error (EstError.boundsError (bound_fail state_c4b.z_bounds))) :=
  setup_bounds_gate triv_solver triv_aux 1 state_c4b rfl (by decide) (by decide)
    rfl rfl

/-- Claim C5 as stated is false: after `setup()` the registration call
`set_p_fun` performs no lifecycle check (estimator.py lines 279-284
assert only the output labels) — it succeeds and replaces the stored
fixed-parameter callback on the fully set-up estimator. -/
theorem set_p_fun_after_setup_counterexample :
    ready_state.flags.setup = true ∧
    (set_p_fun ready_state (fun _ => [])).2 = Except.ok () ∧
    (set_p_fun ready_state (fun _ => [])).1.flags.set_p_fun = true :=
  ⟨rfl, rfl, rfl⟩

/-- Claim C5, amended: after `setup()`, `set_objective` (with 1x1
arguments) fails with the StateError guard and leaves the state
unchanged; but `set_p_fun` and `set_y_fun` check no lifecycle flag —
whenever the callback output matches its template they succeed and
replace the stored callback, in any state; and a second `setup()` call
is not guarded by a StateError: it fails only because `check_validity`
re-runs with the `set_y_fun` flag already raised and hits the
missing-measurement-function configuration error. -/
theorem post_setup_mutation_behavior :
    (∀ (s : MHEState) (obj ac : SymExpr), s.flags.setup = true →
      obj.shape = (1, 1) → ac.shape = (1, 1) →
      set_objective s obj ac =
        (s, Except.error (EstError.stateError "set_objective_after_setup"))) ∧
    (∀ (s : MHEState) (pf : ℤ → List (String × ℤ)),
      (pf 0).map Prod.fst = (get_p_template s).map Prod.fst →
      set_p_fun s pf =
        ({ s with p_fun := some pf,
                  flags := { s.flags with set_p_fun := true } },
          Except.ok ())) ∧
    (∀ (s : MHEState) (yf : List (List ℤ) → ℤ → List (List ℤ)),
      y_shape_matches s (yf s.data.y 0) = true →
      set_y_fun s yf =
        ({ s with y_fun := some yf,
                  flags := { s.flags with set_y_fun := true } },
          Except.ok ())) ∧
    (∀ (solver : OptXNum → OptPNum → OptXNum)
      (aux_eval : OptXNum → OptPNum → List (List ℤ)) (coll : Nat)
      (s : MHEState),
      s.flags.set_objective = true →
      ¬(s.flags.set_tvp_fun = false ∧ 0 < s.model.tvp_syms.length) →
      ¬(s.flags.set_p_fun = false ∧
        0 < (p_set_names s.model.p_names s.p_est_list).length) →
      bounds_check_result [s.x_bounds, s.u_bounds, s.z_bounds] = none →
      s.flags.set_y_fun = true →
      (setup solver aux_eval coll s).2 =
        Except.error (EstError.configurationError "measurement_fun_missing")) := by
  refine ⟨?_, ?_, ?_, ?_⟩
  · intro s obj ac hs ho ha
    unfold set_objective
    rw [if_neg (fun hne => hne ho), if_neg (fun hne => hne ha), if_pos hs]
  · intro s pf h
    unfold set_p_fun
    rw [if_pos h]
  · intro s yf h
    unfold set_y_fun
    rw [if_pos h]
  · intro solver aux_eval coll s h1 h2 h3 hb hy
    rw [setup_snd]
    unfold check_validity
    rw [if_neg (by simp [h1]), if_neg h2, if_neg h3]
    simp only [hb]
    have hyy : ¬((inject_defaults s).flags.set_y_fun = false ∧
        (inject_defaults s).meas_from_data = true) := by
      rw [inject_defaults_set_y_fun, hy]
      simp
    rw [if_neg hyy]

theorem post_setup_mutation_behavior_witness :
    set_objective ready_state { shape := (1, 1), symvars := [] }
        { shape := (1, 1), symvars := [] } =
      (ready_state, Except.error (EstError.stateError "set_objective_after_setup")) ∧
    set_p_fun ready_state (fun _ => []) =
      ({ ready_state with p_fun := some (fun _ => []),
                          flags := { ready_state.flags with set_p_fun := true } },
        Except.ok ()) ∧
    set_y_fun ready_state (fun _ _ => [[0]]) =
      ({ ready_state with y_fun := some (fun _ _ => [[0]]),
                          flags := { ready_state.flags with set_y_fun := true } },
        Except.ok ()) ∧
    (setup triv_solver triv_aux 1 ready_state).2 =
      Except.error (EstError.configurationError "measurement_fun_missing") :=
  ⟨post_setup_mutation_behavior.1 ready_state _ _ rfl rfl rfl,
   post_setup_mutation_behavior.2.1 ready_state _ rfl,
   post_setup_mutation_behavior.2.2.1 ready_state _ rfl,
   post_setup_mutation_behavior.2.2.2 triv_solver triv_aux 1 ready_state rfl
     (by decide) (by decide) rfl rfl⟩

/-- A solver handle whose returned solution has last-step,
last-collocation-point state 5 and last input 2 (scalar model,
horizon 1, one collocation point). -/
def solver7 : OptXNum → OptPNum → OptXNum := fun _ _ =>
  { x := [[[0], [0]], [[0], [5]]], z := [[[], []]], u := [[2]], p_est := [] }

/-- The estimator set up from `pre_state` with `solver7`. -/
def state7 : MHEState := (setup solver7 (fun _ _ => [[]]) 1 pre_state).1

/-- Claim C7 as stated is false: after a `make_step` whose solve
extracts the state estimate 5, the step record appended to the history
holds the *previous* state estimate 0 (`self.data.update(_x = x0)` with
the pre-solve local `x0`, estimator.py lines 395 and 420), not the
extracted state, while the extracted state is what `make_step`
returns. -/
theorem make_step_record_counterexample :
    (make_step state7 [9]).2 = Except.ok [5] ∧
    (make_step state7 [9]).1.data.x = [[0]] ∧
    ([0] : List ℤ) ≠ [5] :=
  ⟨by rfl, by rfl, by decide⟩

/-- Claim C7, amended: each `make_step` call on a set-up estimator
appends exactly one record to the history sink, holding the measurement
(as the separate `_y` append), the *previous* state estimate `_x0`
held before the call, the extracted last input, the extracted last
algebraic value, the full parameter vector recombined from the
*previous* parameter estimate and the current fixed-parameter callback
value (not the just-extracted parameter estimate), the pre-increment
time, and the last auxiliary block of the fresh evaluation; the value
returned by `make_step` is the extracted last-horizon-step
last-collocation-point state, which becomes the new stored estimate
`_x0` but is not what this step's record contains. -/
theorem make_step_record_contents (s : MHEState) (y0 : List ℤ)
    {tf : ℤ → List (List ℤ)} {pf : ℤ → List (String × ℤ)}
    {yf : List (List ℤ) → ℤ → List (List ℤ)} {op : OptPNum}
    {S0 : OptXNum → OptPNum → OptXNum}
    {af : OptXNum → OptPNum → List (List ℤ)} {oxn : OptXNum}
    (h1 : s.tvp_fun = some tf) (h2 : s.p_fun = some pf)
    (h3 : s.y_fun = some yf) (h4 : s.opt_p_num = some op)
    (h5 : s.S = some S0) (h6 : s.aux_fun = some af)
    (h7 : s.opt_x_num = some oxn) :
    (make_step s y0).1.data.y = s.data.y ++ [y0] ∧
    (make_step s y0).1.data.x = s.data.x ++ [s.x0] ∧
    (make_step s y0).1.data.u = s.data.u ++ [(make_step s y0).1.u0] ∧
    (make_step s y0).1.data.z = s.data.z ++ [(make_step s y0).1.z0] ∧
    (make_step s y0).1.data.p = s.data.p ++
      [p_cat_fun s.model.p_names s.p_est_list
        ((p_est_names s.model.p_names s.p_est_list).zip s.p_est0)
        (pf s.t0)] ∧
    (make_step s y0).1.data.time = s.data.time ++ [s.t0] ∧
    (make_step s y0).1.data.aux = s.data.aux ++
      [((make_step s y0).1.opt_aux_num.getD []).getLastD []] ∧
    (make_step s y0).2 = Except.ok (make_step s y0).1.x0 := by
  unfold make_step
  rw [h1, h2, h3, h4, h5, h6, h7]
  exact ⟨rfl, rfl, rfl, rfl, rfl, rfl, rfl, rfl⟩

theorem make_step_record_contents_witness :
    (make_step state7 [9]).1.data.y = state7.data.y ++ [[9]] ∧
    (make_step state7 [9]).1.data.x = state7.data.x ++ [state7.x0] ∧
    (make_step state7 [9]).1.data.u =
      state7.data.u ++ [(make_step state7 [9]).1.u0] ∧
    (make_step state7 [9]).1.data.z =
      state7.data.z ++ [(make_step state7 [9]).1.z0] ∧
    (make_step state7 [9]).1.data.p = state7.data.p ++
      [p_cat_fun state7.model.p_names state7.p_est_list
        ((p_est_names state7.model.p_names state7.p_est_list).zip state7.p_est0)
        []] ∧
    (make_step state7 [9]).1.data.time = state7.data.time ++ [state7.t0] ∧
    (make_step state7 [9]).1.data.aux = state7.data.aux ++
      [((make_step state7 [9]).1.opt_aux_num.getD []).getLastD []] ∧
    (make_step state7 [9]).2 = Except.ok (make_step state7 [9]).1.x0 :=
  make_step_record_contents state7 [9] rfl rfl rfl rfl rfl rfl rfl
